import Mathlib

/-!
# Verification of the stellar-network-monitoring-mcp scoring and aggregation logic

This file gives a shallow embedding, over exact rational arithmetic, of the
scoring and aggregation functions of the `stellar-network-monitoring-mcp`
repository (the tool handlers in `src/tools/nodes.ts`, `src/tools/network.ts`,
`src/tools/organizations.ts`, and the dispatcher in `src/index.ts`), and proves
properties of those functions.

JavaScript numbers are modelled by `ℚ`; `Math.round` is modelled by `jsRound`
(round half towards positive infinity); optional fields by `Option`;
JavaScript truthiness of numbers (`x || d`, `if (x)`) and of strings
(`s || d`, `!s`) is modelled explicitly where it occurs.
-/

namespace StellarMon

/-- JavaScript `Math.round`: nearest integer, halves towards `+∞`. -/
def jsRound (q : ℚ) : ℤ := ⌊q + 1/2⌋

theorem jsRound_le_jsRound {q r : ℚ} (h : q ≤ r) : jsRound q ≤ jsRound r :=
  Int.floor_le_floor (by linarith)

theorem jsRound_intCast (n : ℤ) : jsRound (n : ℚ) = n := by
  unfold jsRound
  rw [Int.floor_eq_iff]
  exact ⟨by linarith, by linarith⟩

/-- JavaScript truthiness of an (optional) number: `undefined`, `0` and `NaN`
are falsy; `NaN` does not arise in the rational model. -/
def numTruthy : Option ℚ → Bool
  | none => false
  | some q => q != 0

/-- JavaScript truthiness of an (optional) string: `undefined` and `""` are falsy. -/
def strTruthy : Option String → Bool
  | none => false
  | some s => s != ""

/-- Geography block of a node (`src/types/index.ts`, `Geography`). -/
structure Geography where
  countryCode : Option String := none
  countryName : Option String := none
deriving Repr, DecidableEq

/-- The statistics sub-record of a node (`src/types/index.ts`, `NodeStatistics`);
only the fields the analysed handlers read are modelled. -/
structure NodeStatistics where
  validating24HoursPercentage : Option ℚ := none
  validating30DaysPercentage : Option ℚ := none
deriving Repr, DecidableEq

/-- A network node (`src/types/index.ts`, `Node`); fields not read by the
analysed handlers are omitted. -/
structure Node where
  publicKey : String := ""
  name : Option String := none
  host : Option String := none
  organizationId : Option String := none
  active : Bool
  overLoaded : Bool
  validating : Bool
  stellarCoreVersion : Option String := none
  uptime : Option ℚ := none
  geography : Option Geography := none
  statistics : Option NodeStatistics := none
deriving Repr, DecidableEq

/-- A historical node snapshot (`src/types/index.ts`, `NodeSnapshot`);
lists of snapshots are ordered newest-first. -/
structure NodeSnapshot where
  publicKey : String := ""
  dateCreated : String := ""
  active : Bool
  overLoaded : Bool := false
  validating : Bool := false
  uptime : Option ℚ := none
deriving Repr, DecidableEq

/-- Result of a node health check (`src/types/index.ts`, `HealthCheck`).
The status strings are `"healthy"`, `"warning"`, `"critical"`. -/
structure HealthCheck where
  status : String
  issues : List String
  score : ℤ
deriving Repr, DecidableEq

/-- `NodeTools.determineHealthStatus` (`src/tools/nodes.ts:586-590`). -/
def determineHealthStatus (score : ℚ) : String :=
  if score ≥ 80 then "healthy"
  else if score ≥ 60 then "warning"
  else "critical"

/-- Core of `NodeTools.handleCheckNodeHealth` (`src/tools/nodes.ts:412-462`):
the issue list and score computed from the fetched node.  The status is
computed from the running score *before* it is clamped and rounded, exactly
as in the source (`determineHealthStatus(score)` on line 451 precedes
`Math.max(0, Math.round(score))` on line 456).
`!node.stellarCoreVersion` is JavaScript truthiness: missing or empty. -/
def checkNodeHealth (node : Node) : HealthCheck :=
  let issues0 : List String := []
  let score0 : ℚ := 100
  let (issues1, score1) :=
    if !node.active then (issues0 ++ ["Node is not active"], score0 - 40)
    else (issues0, score0)
  let (issues2, score2) :=
    if node.overLoaded then (issues1 ++ ["Node is overloaded"], score1 - 20)
    else (issues1, score1)
  let (issues3, score3) :=
    match node.uptime with
    | some u =>
        if u < 95 then (issues2 ++ ["Low uptime: " ++ toString u ++ "%"], score2 - max 0 ((95 - u) * 2))
        else (issues2, score2)
    | none => (issues2, score2)
  let (issues4, score4) :=
    if !strTruthy node.stellarCoreVersion then (issues3 ++ ["Stellar Core version not reported"], score3 - 10)
    else (issues3, score3)
  let (issues5, score5) :=
    if node.validating && !node.active then (issues4 ++ ["Validator is offline"], score4 - 30)
    else (issues4, score4)
  { status := determineHealthStatus score5
    issues := issues5
    score := max 0 (jsRound score5) }

/-- The total deduction of `checkNodeHealth`, written as the spec lists it:
40 if not active, 20 if overloaded, `max(0,(95-uptime)*2)` for defined
uptime below 95, 10 for a missing (or empty) version string, 30 if
validating while not active. -/
def healthDeduction (node : Node) : ℚ :=
  (if node.active then 0 else 40)
  + (if node.overLoaded then 20 else 0)
  + (match node.uptime with
     | some u => if u < 95 then max 0 ((95 - u) * 2) else 0
     | none => 0)
  + (if strTruthy node.stellarCoreVersion then 0 else 10)
  + (if node.validating && !node.active then 30 else 0)

theorem healthDeduction_nonneg (node : Node) : 0 ≤ healthDeduction node := by
  unfold healthDeduction
  rcases node with ⟨pk, nm, hst, org, active, over, val, ver, uptime, geo, st⟩
  cases uptime <;> simp only <;> split_ifs <;>
    simp_all <;> linarith

theorem checkNodeHealth_score_aux (node : Node) :
    checkNodeHealth node =
      { status := determineHealthStatus (100 - healthDeduction node)
        issues := (checkNodeHealth node).issues
        score := max 0 (jsRound (100 - healthDeduction node)) } := by
  rcases node with ⟨pk, nm, hst, org, active, over, val, ver, uptime, geo, st⟩
  cases uptime <;>
    simp only [checkNodeHealth, healthDeduction] <;>
    split_ifs <;>
    simp_all [HealthCheck.mk.injEq] <;>
    constructor <;> congr 1 <;> ring_nf

end StellarMon

/-- Concrete node used to refute claim C1's status/score consistency:
active, not overloaded, not validating, version reported, uptime 84.85%. -/
def c1Node : StellarMon.Node :=
  { active := true, overLoaded := false, validating := false,
    stellarCoreVersion := some "stellar-core 19.5.0", uptime := some (1697/20) }

namespace StellarMon

theorem c1_deduction : healthDeduction c1Node = 203/10 := by
  simp only [healthDeduction, c1Node, strTruthy]
  norm_num [max_def]
  decide

/-- Claim C1, counterexample: for a node with uptime 84.85% the raw score is
79.7, so `determineHealthStatus` (which the source applies before clamping
and rounding) yields `"warning"`, while the returned, rounded score is 80 —
contradicting the claim that the returned status is `"healthy"` whenever the
returned score is ≥ 80. -/
theorem checkNodeHealth_status_mismatch :
    (checkNodeHealth c1Node).score = 80 ∧
    80 ≤ (checkNodeHealth c1Node).score ∧
    (checkNodeHealth c1Node).status ≠ "healthy" := by
  have h := checkNodeHealth_score_aux c1Node
  have hsc : (checkNodeHealth c1Node).score = 80 := by
    rw [h]
    simp only [c1_deduction]
    have hfl : jsRound (100 - 203/10) = 80 := by
      unfold jsRound
      norm_num
    rw [hfl]
    decide
  have hst : (checkNodeHealth c1Node).status = "warning" := by
    rw [h]
    simp only [c1_deduction, determineHealthStatus]
    norm_num
  exact ⟨hsc, by omega, by rw [hst]; decide⟩

/-- Claim C1 (amended): for every node, `checkNodeHealth` returns the score
`100` minus the deductions (40 if not active, 20 if overloaded,
`max(0,(95-uptime)*2)` if uptime is defined and below 95, 10 if the software
version is missing or empty, 30 if validating but not active), rounded to the
nearest integer and clamped to be ≥ 0; the resulting score always lies in
[0,100]; and the returned status is obtained by applying the thresholds
(≥ 80 healthy, ≥ 60 warning, else critical) to the *raw* score, before
clamping and rounding. -/
theorem checkNodeHealth_spec (node : Node) :
    (checkNodeHealth node).score = max 0 (jsRound (100 - healthDeduction node))
    ∧ 0 ≤ (checkNodeHealth node).score
    ∧ (checkNodeHealth node).score ≤ 100
    ∧ (checkNodeHealth node).status =
        (if 100 - healthDeduction node ≥ 80 then "healthy"
         else if 100 - healthDeduction node ≥ 60 then "warning"
         else "critical") := by
  have h := checkNodeHealth_score_aux node
  have hd := healthDeduction_nonneg node
  have hle : jsRound (100 - healthDeduction node) ≤ 100 := by
    have h100 : jsRound ((100 : ℤ) : ℚ) = 100 := jsRound_intCast 100
    have := jsRound_le_jsRound (show 100 - healthDeduction node ≤ ((100 : ℤ) : ℚ) by push_cast; linarith)
    omega
  refine ⟨by rw [h], by rw [h]; simp, by rw [h]; simp only; omega, by rw [h]; rfl⟩

end StellarMon

namespace StellarMon

/-- `NodeTools.calculateUptimeTrend` (`src/tools/nodes.ts:882-896`): windows
are `slice(0, min(10,n))` (newest) and `slice(-min(10,n))` (oldest); each
window average treats a missing uptime as 0 (`s.uptime || 0`) and divides by
the window length. -/
def calculateUptimeTrend (snapshots : List NodeSnapshot) : String :=
  if snapshots.length < 2 then "insufficient_data"
  else
    let recentSnapshots := snapshots.take (min 10 snapshots.length)
    let olderSnapshots := snapshots.drop (snapshots.length - min 10 snapshots.length)
    let recentAvg := (recentSnapshots.map (fun s => s.uptime.getD 0)).sum / (recentSnapshots.length : ℚ)
    let olderAvg := (olderSnapshots.map (fun s => s.uptime.getD 0)).sum / (olderSnapshots.length : ℚ)
    let difference := recentAvg - olderAvg
    if difference > 2 then "improving"
    else if difference < -2 then "declining"
    else "stable"

/-- Claim C5: `calculateUptimeTrend` returns `"insufficient_data"` for fewer
than two snapshots; otherwise it averages the missing-as-zero uptimes over
the first `min(10,n)` snapshots (recent) and the last `min(10,n)` snapshots
(older) — windows that overlap whenever `n < 20` — and classifies the
difference: `> 2` improving, `< -2` declining, otherwise stable. -/
theorem calculateUptimeTrend_spec (snapshots : List NodeSnapshot) :
    (snapshots.length < 2 → calculateUptimeTrend snapshots = "insufficient_data")
    ∧ (2 ≤ snapshots.length →
        (snapshots.take (min 10 snapshots.length)).length = min 10 snapshots.length
        ∧ (snapshots.drop (snapshots.length - min 10 snapshots.length)).length
            = min 10 snapshots.length
        ∧ (snapshots.length < 20 →
            snapshots.length - min 10 snapshots.length < min 10 snapshots.length)
        ∧ calculateUptimeTrend snapshots =
            (if ((snapshots.take (min 10 snapshots.length)).map (fun s => s.uptime.getD 0)).sum
                  / ((min 10 snapshots.length : ℕ) : ℚ)
                - ((snapshots.drop (snapshots.length - min 10 snapshots.length)).map
                    (fun s => s.uptime.getD 0)).sum / ((min 10 snapshots.length : ℕ) : ℚ)
                > 2 then "improving"
             else if ((snapshots.take (min 10 snapshots.length)).map (fun s => s.uptime.getD 0)).sum
                  / ((min 10 snapshots.length : ℕ) : ℚ)
                - ((snapshots.drop (snapshots.length - min 10 snapshots.length)).map
                    (fun s => s.uptime.getD 0)).sum / ((min 10 snapshots.length : ℕ) : ℚ)
                < -2 then "declining"
             else "stable")) := by
  constructor
  · intro h
    simp [calculateUptimeTrend, h]
  · intro h
    have htake : (snapshots.take (min 10 snapshots.length)).length = min 10 snapshots.length := by
      rw [List.length_take]
      omega
    have hdrop : (snapshots.drop (snapshots.length - min 10 snapshots.length)).length
        = min 10 snapshots.length := by
      rw [List.length_drop]
      omega
    refine ⟨htake, hdrop, by omega, ?_⟩
    rw [calculateUptimeTrend, if_neg (by omega)]
    simp only [htake, hdrop]

end StellarMon

namespace StellarMon

/-- Result of `NodeTools.analyzeSnapshotTrends` (`src/tools/nodes.ts:858-880`). -/
structure SnapshotTrends where
  averageUptime : ℚ
  downtimeEvents : ℕ
  trend : String
deriving Repr, DecidableEq

/-- The downtime-event count of `analyzeSnapshotTrends`: transitions from an
active snapshot to an inactive one between consecutive snapshots
(`src/tools/nodes.ts:866-871`). -/
def downtimeEventsCount (snapshots : List NodeSnapshot) : ℕ :=
  ((snapshots.zip snapshots.tail).filter (fun p => p.1.active && !p.2.active)).length

/-- `NodeTools.analyzeSnapshotTrends` (`src/tools/nodes.ts:858-880`): average
uptime over the strictly-positive missing-as-zero uptimes (rounded to two
decimals), downtime events, and the uptime trend. -/
def analyzeSnapshotTrends (snapshots : List NodeSnapshot) : SnapshotTrends :=
  if snapshots.length = 0 then
    { averageUptime := 0, downtimeEvents := 0, trend := "no_data" }
  else
    let uptimes := (snapshots.map (fun s => s.uptime.getD 0)).filter (fun u => u > 0)
    let averageUptime : ℚ :=
      if uptimes.length > 0 then uptimes.sum / (uptimes.length : ℚ) else 0
    { averageUptime := (jsRound (averageUptime * 100) : ℚ) / 100
      downtimeEvents := downtimeEventsCount snapshots
      trend := calculateUptimeTrend snapshots }

/-- `NodeTools.calculateStabilityScore` (`src/tools/nodes.ts:927-939`). -/
def calculateStabilityScore (snapshots : List NodeSnapshot) : ℚ :=
  if snapshots.length < 2 then 1/2
  else
    let stabilityEvents :=
      ((snapshots.zip snapshots.tail).filter (fun p => p.1.active != p.2.active)).length
    let stabilityRatio := 1 - (stabilityEvents : ℚ) / (snapshots.length : ℚ)
    max 0 (min 1 stabilityRatio)

/-- `NodeTools.calculatePerformanceScore` (`src/tools/nodes.ts:898-909`).
`if (node.uptime)` is JavaScript numeric truthiness. -/
def calculatePerformanceScore (node : Node) (snapshots : List NodeSnapshot) : ℚ :=
  let s1 : ℚ := if node.active then 30 else 0
  let s2 := if !node.overLoaded then s1 + 20 else s1
  let s3 := if numTruthy node.uptime then s2 + min 30 (node.uptime.getD 0 * (3/10)) else s2
  let s4 := s3 + calculateStabilityScore snapshots * 20
  (jsRound s4 : ℚ)

/-- `NodeTools.calculateReliabilityScore` (`src/tools/nodes.ts:911-925`). -/
def calculateReliabilityScore (node : Node) (snapshots : List NodeSnapshot) : ℚ :=
  let s1 : ℚ := if numTruthy node.uptime then node.uptime.getD 0 * (2/5) else 0
  let s2 := if node.active then s1 + 20 else s1
  let s3 := if !node.overLoaded then s2 + 10 else s2
  let trends := analyzeSnapshotTrends snapshots
  let s4 :=
    if trends.trend = "improving" then s3 + 10
    else if trends.trend = "declining" then s3 - 10
    else s3
  let s5 := s4 - (trends.downtimeEvents : ℚ) * 5
  (max 0 (jsRound s5) : ℚ)

/-- `NodeTools.calculateNodeAge` (`src/tools/nodes.ts:941-951`): days between
the oldest (last) and newest (first) snapshot timestamps.  `timeOf` models
`new Date(s).getTime()` in milliseconds (external date parsing). -/
def calculateNodeAge (timeOf : String → ℚ) (snapshots : List NodeSnapshot) : ℚ :=
  match snapshots.head?, snapshots.getLast? with
  | some newest, some oldest =>
      if oldest.dateCreated = "" || newest.dateCreated = "" then 0
      else (jsRound ((timeOf newest.dateCreated - timeOf oldest.dateCreated)
              / (1000 * 60 * 60 * 24)) : ℚ)
  | _, _ => 0

/-- The score selected by `sortBy` in `NodeTools.handleRankValidators`
(`src/tools/nodes.ts:812-827`); the `default` branch uses the reliability
score, and `validator.uptime || 0` treats a missing uptime as 0. -/
def rankingScore (timeOf : String → ℚ) (sortBy : String) (v : Node)
    (snaps : List NodeSnapshot) : ℚ :=
  if sortBy = "uptime" then v.uptime.getD 0
  else if sortBy = "performance" then calculatePerformanceScore v snaps
  else if sortBy = "reliability" then calculateReliabilityScore v snaps
  else if sortBy = "age" then calculateNodeAge timeOf snaps
  else calculateReliabilityScore v snaps

/-- The validator pool of `handleRankValidators` (`src/tools/nodes.ts:786-790`):
all validating nodes, restricted to active ones unless `activeOnly` is
literally `false`. -/
def rankingValidatorPool (nodes : List Node) (activeOnly : Option Bool) : List Node :=
  let validators := nodes.filter (·.validating)
  if activeOnly ≠ some false then validators.filter (·.active) else validators

/-- `args.sortBy || 'reliability'` (`src/tools/nodes.ts:792`). -/
def effectiveSortBy (sortBy : Option String) : String :=
  if strTruthy sortBy then sortBy.getD "" else "reliability"

/-- The validator/score pairs accumulated by the ranking loop of
`handleRankValidators` (`src/tools/nodes.ts:795-830`), in input order;
`snapsOf` models the per-validator snapshot fetch. -/
def scoredValidators (timeOf : String → ℚ) (nodes : List Node)
    (snapsOf : String → List NodeSnapshot) (sortBy : Option String)
    (activeOnly : Option Bool) : List (Node × ℚ) :=
  (rankingValidatorPool nodes activeOnly).map
    (fun v => (v, rankingScore timeOf (effectiveSortBy sortBy) v (snapsOf v.publicKey)))

/-- The comparator `(a, b) => b.score - a.score` of
`src/tools/nodes.ts:832`, as the total preorder it sorts by. -/
def scoreLE (a b : Node × ℚ) : Bool := b.2 ≤ a.2

/-- The sorted ranking list (`rankedValidators.sort(...)`,
`src/tools/nodes.ts:832`): JavaScript `Array.prototype.sort` is stable, so it
is modelled by the stable `List.mergeSort`. -/
def sortedScoredValidators (timeOf : String → ℚ) (nodes : List Node)
    (snapsOf : String → List NodeSnapshot) (sortBy : Option String)
    (activeOnly : Option Bool) : List (Node × ℚ) :=
  (scoredValidators timeOf nodes snapsOf sortBy activeOnly).mergeSort scoreLE

/-- One entry of the ranked-validator output
(`src/tools/nodes.ts:801-810,833-835`). -/
structure RankEntry where
  rank : ℕ
  publicKey : String
  name : Option String
  organizationId : Option String
  score : ℚ
deriving Repr, DecidableEq

/-- The fully ranked validator list (the `rankedValidators` variable of
`handleRankValidators` after the sort and the `rank = index + 1`
assignment, `src/tools/nodes.ts:832-835`). -/
def rankedValidatorsFull (timeOf : String → ℚ) (nodes : List Node)
    (snapsOf : String → List NodeSnapshot) (sortBy : Option String)
    (activeOnly : Option Bool) : List RankEntry :=
  (sortedScoredValidators timeOf nodes snapsOf sortBy activeOnly).enum.map
    (fun p =>
      { rank := p.1 + 1
        publicKey := p.2.1.publicKey
        name := p.2.1.name
        organizationId := p.2.1.organizationId
        score := p.2.2 })

/-- The result envelope of `handleRankValidators`
(`src/tools/nodes.ts:839-851`). -/
structure RankResult where
  validators : List RankEntry
  criteria : String
  total : ℕ
  shown : ℕ
  averageScore : ℚ
  topScore : ℚ
deriving Repr, DecidableEq

/-- `NodeTools.handleRankValidators` (`src/tools/nodes.ts:776-856`): page of
at most `limit` entries (`args.limit || 50`), plus statistics computed over
the full ranked list: `averageScore` sums every score and divides by the
full count, `topScore` is the first (highest) score (`|| 0` when empty). -/
def handleRankValidators (timeOf : String → ℚ) (nodes : List Node)
    (snapsOf : String → List NodeSnapshot) (sortBy : Option String)
    (limit : Option ℕ) (activeOnly : Option Bool) : RankResult :=
  let full := rankedValidatorsFull timeOf nodes snapsOf sortBy activeOnly
  let lim := match limit with
    | none => 50
    | some k => if k = 0 then 50 else k
  let top := full.take lim
  { validators := top
    criteria := effectiveSortBy sortBy
    total := full.length
    shown := top.length
    averageScore := (full.map RankEntry.score).sum / (full.length : ℚ)
    topScore := match full.head? with | some e => e.score | none => 0 }

end StellarMon

namespace StellarMon

theorem scoreLE_trans (a b c : Node × ℚ) (hab : scoreLE a b) (hbc : scoreLE b c) :
    scoreLE a c := by
  simp only [scoreLE, decide_eq_true_eq] at *
  linarith

theorem scoreLE_total (a b : Node × ℚ) : scoreLE a b || scoreLE b a := by
  simp only [scoreLE, Bool.or_eq_true, decide_eq_true_eq]
  exact le_total b.2 a.2

theorem sortedScored_pairwise (timeOf : String → ℚ) (nodes : List Node)
    (snapsOf : String → List NodeSnapshot) (sortBy : Option String)
    (activeOnly : Option Bool) :
    (sortedScoredValidators timeOf nodes snapsOf sortBy activeOnly).Pairwise
      (fun a b => b.2 ≤ a.2) := by
  have h := @List.sorted_mergeSort _ scoreLE scoreLE_trans scoreLE_total
    (scoredValidators timeOf nodes snapsOf sortBy activeOnly)
  exact h.imp (by intro a b hab; simpa [scoreLE] using hab)

theorem full_map_score (timeOf : String → ℚ) (nodes : List Node)
    (snapsOf : String → List NodeSnapshot) (sortBy : Option String)
    (activeOnly : Option Bool) :
    (rankedValidatorsFull timeOf nodes snapsOf sortBy activeOnly).map RankEntry.score
      = (sortedScoredValidators timeOf nodes snapsOf sortBy activeOnly).map Prod.snd := by
  unfold rankedValidatorsFull
  rw [List.map_map]
  have : (RankEntry.score ∘ fun p : ℕ × (Node × ℚ) =>
      RankEntry.mk (p.1 + 1) p.2.1.publicKey p.2.1.name p.2.1.organizationId p.2.2)
      = Prod.snd ∘ Prod.snd := rfl
  rw [this, ← List.map_map, List.enum_map_snd]

theorem full_map_rank (timeOf : String → ℚ) (nodes : List Node)
    (snapsOf : String → List NodeSnapshot) (sortBy : Option String)
    (activeOnly : Option Bool) :
    (rankedValidatorsFull timeOf nodes snapsOf sortBy activeOnly).map RankEntry.rank
      = List.range' 1 (rankedValidatorsFull timeOf nodes snapsOf sortBy activeOnly).length := by
  unfold rankedValidatorsFull
  rw [List.map_map, List.length_map, List.enum_length]
  have : (RankEntry.rank ∘ fun p : ℕ × (Node × ℚ) =>
      RankEntry.mk (p.1 + 1) p.2.1.publicKey p.2.1.name p.2.1.organizationId p.2.2)
      = (fun i => i + 1) ∘ Prod.fst := rfl
  rw [this, ← List.map_map, List.enum_map_fst, List.range'_eq_map_range]
  exact (List.map_congr_left (fun i _ => Nat.add_comm i 1)).symm ▸ rfl

end StellarMon

namespace StellarMon

theorem sortedScored_stable (timeOf : String → ℚ) (nodes : List Node)
    (snapsOf : String → List NodeSnapshot) (sortBy : Option String)
    (activeOnly : Option Bool) (q : ℚ) :
    (sortedScoredValidators timeOf nodes snapsOf sortBy activeOnly).filter
        (fun p => p.2 == q)
      = (scoredValidators timeOf nodes snapsOf sortBy activeOnly).filter
        (fun p => p.2 == q) := by
  set l := scoredValidators timeOf nodes snapsOf sortBy activeOnly with hl
  set p : Node × ℚ → Bool := fun x => x.2 == q with hp
  have hpw : (l.filter p).Pairwise (fun a b => scoreLE a b) := by
    apply List.pairwise_of_forall_mem_list
    intro a ha b hb
    have ha2 : a.2 = q := by
      have := List.of_mem_filter ha
      simpa [hp] using this
    have hb2 : b.2 = q := by
      have := List.of_mem_filter hb
      simpa [hp] using this
    simp [scoreLE, ha2, hb2]
  have hsub : List.Sublist (l.filter p) (l.mergeSort scoreLE) :=
    List.sublist_mergeSort scoreLE_trans scoreLE_total hpw (List.filter_sublist l)
  have h2 : List.Sublist (l.filter p) ((l.mergeSort scoreLE).filter p) := by
    have h3 := hsub.filter p
    rwa [List.filter_filter, List.filter_congr (by intro a _; exact Bool.and_self (p a))] at h3
  have hlen : (l.filter p).length = ((l.mergeSort scoreLE).filter p).length :=
    (((List.mergeSort_perm l scoreLE).filter p).length_eq).symm
  exact (h2.eq_of_length hlen).symm

end StellarMon

namespace StellarMon

/-- Claim C2: for every non-empty validator set and every sort criterion,
the ranked list of `handleRankValidators` is sorted in descending order of
the computed score; ties retain the input relative order (the stable sort
leaves the entries of any fixed score in input order); the rank fields form
the contiguous sequence 1..N over the full ranked set; the returned page is
the `limit`-prefix of that set; and `averageScore` and `topScore` are
computed over the full ranked set (sum over all N scores divided by N, and
the maximum score), not only over the returned page. -/
theorem rankValidators_spec (timeOf : String → ℚ) (nodes : List Node)
    (snapsOf : String → List NodeSnapshot) (sortBy : Option String)
    (limit : Option ℕ) (activeOnly : Option Bool)
    (hne : rankedValidatorsFull timeOf nodes snapsOf sortBy activeOnly ≠ []) :
    (rankedValidatorsFull timeOf nodes snapsOf sortBy activeOnly).map RankEntry.rank
        = List.range' 1 (rankedValidatorsFull timeOf nodes snapsOf sortBy activeOnly).length
    ∧ ((rankedValidatorsFull timeOf nodes snapsOf sortBy activeOnly).map RankEntry.score).Pairwise (· ≥ ·)
    ∧ (∀ q : ℚ,
        (sortedScoredValidators timeOf nodes snapsOf sortBy activeOnly).filter (fun p => p.2 == q)
          = (scoredValidators timeOf nodes snapsOf sortBy activeOnly).filter (fun p => p.2 == q))
    ∧ (handleRankValidators timeOf nodes snapsOf sortBy limit activeOnly).validators
        = (rankedValidatorsFull timeOf nodes snapsOf sortBy activeOnly).take
            (match limit with | none => 50 | some k => if k = 0 then 50 else k)
    ∧ (handleRankValidators timeOf nodes snapsOf sortBy limit activeOnly).averageScore
        = ((rankedValidatorsFull timeOf nodes snapsOf sortBy activeOnly).map RankEntry.score).sum
            / ((rankedValidatorsFull timeOf nodes snapsOf sortBy activeOnly).length : ℚ)
    ∧ (∃ e ∈ rankedValidatorsFull timeOf nodes snapsOf sortBy activeOnly,
        (handleRankValidators timeOf nodes snapsOf sortBy limit activeOnly).topScore = e.score)
    ∧ (∀ e ∈ rankedValidatorsFull timeOf nodes snapsOf sortBy activeOnly,
        e.score ≤ (handleRankValidators timeOf nodes snapsOf sortBy limit activeOnly).topScore) := by
  have hpw : ((rankedValidatorsFull timeOf nodes snapsOf sortBy activeOnly).map
      RankEntry.score).Pairwise (· ≥ ·) := by
    rw [full_map_score]
    rw [List.pairwise_map]
    exact (sortedScored_pairwise timeOf nodes snapsOf sortBy activeOnly).imp (fun h => h)
  refine ⟨full_map_rank _ _ _ _ _, hpw, sortedScored_stable _ _ _ _ _, rfl, rfl, ?_, ?_⟩
  · cases hfull : rankedValidatorsFull timeOf nodes snapsOf sortBy activeOnly with
    | nil => exact absurd hfull hne
    | cons e rest =>
        refine ⟨e, by simp, ?_⟩
        show (match (rankedValidatorsFull timeOf nodes snapsOf sortBy activeOnly).head? with
          | some e => e.score | none => 0) = e.score
        rw [hfull]
        rfl
  · intro e' he'
    cases hfull : rankedValidatorsFull timeOf nodes snapsOf sortBy activeOnly with
    | nil => exact absurd hfull hne
    | cons e rest =>
        have htop : (handleRankValidators timeOf nodes snapsOf sortBy limit activeOnly).topScore
            = e.score := by
          show (match (rankedValidatorsFull timeOf nodes snapsOf sortBy activeOnly).head? with
            | some e => e.score | none => 0) = e.score
          rw [hfull]
          rfl
        rw [htop]
        rw [hfull] at hpw he'
        rw [List.map_cons, List.pairwise_cons] at hpw
        rcases List.mem_cons.mp he' with h | h
        · rw [h]
        · exact hpw.1 e'.score (List.mem_map_of_mem RankEntry.score h)

end StellarMon

/-- A single active validator, used to instantiate the ranking theorem. -/
def c2Node : StellarMon.Node :=
  { publicKey := "GAVALIDATOR", active := true, overLoaded := false, validating := true }

namespace StellarMon

theorem rankValidators_spec_witness :
    rankedValidatorsFull (fun _ => 0) [c2Node] (fun _ => []) none none ≠ []
    ∧ (rankedValidatorsFull (fun _ => 0) [c2Node] (fun _ => []) none none).map RankEntry.rank
        = List.range' 1 (rankedValidatorsFull (fun _ => 0) [c2Node] (fun _ => []) none none).length := by
  have h : rankedValidatorsFull (fun _ => 0) [c2Node] (fun _ => []) none none ≠ [] := by
    simp [rankedValidatorsFull, sortedScoredValidators, scoredValidators,
      rankingValidatorPool, c2Node]
  exact ⟨h, (rankValidators_spec (fun _ => 0) [c2Node] (fun _ => []) none none none h).1⟩

end StellarMon

namespace StellarMon

/-- `validator.organizationId || 'unknown'`
(`src/tools/network.ts`, `analyzeQuorumIntersection`): missing or empty
organization ids are bucketed as `"unknown"`. -/
def orgKeyQ (v : Node) : String :=
  if strTruthy v.organizationId then v.organizationId.getD "" else "unknown"

/-- `NetworkTools.analyzeQuorumIntersection` (`src/tools/network.ts`):
with fewer than 4 validators, intersecting iff at least 3; otherwise group
the validators by organization and require the largest group to hold
strictly less than 50% of the validators and at least 3 distinct
organizations. -/
def analyzeQuorumIntersection (validators : List Node) : Bool :=
  if validators.length < 4 then decide (validators.length ≥ 3)
  else
    let keys := validators.map orgKeyQ
    let organizations := keys.dedup
    let maxValidatorsPerOrg : ℕ := (organizations.map (fun o => keys.count o)).foldr max 0
    decide ((maxValidatorsPerOrg : ℚ) < (validators.length : ℚ) * (1/2))
      && decide (organizations.length ≥ 3)

theorem foldr_max_twice_lt_iff (l : List ℕ) (L : ℕ) (hL : 0 < L) :
    2 * l.foldr max 0 < L ↔ ∀ x ∈ l, 2 * x < L := by
  induction l with
  | nil => simpa using hL
  | cons a t ih =>
      simp only [List.foldr_cons, List.mem_cons]
      constructor
      · intro h
        rintro x (rfl | hx)
        · omega
        · exact ih.mp (by omega) x hx
      · intro h
        have h1 : 2 * a < L := h a (Or.inl rfl)
        have h2 : 2 * t.foldr max 0 < L := ih.mpr (fun x hx => h x (Or.inr hx))
        omega

theorem length_le_one_of_nodup_of_all_eq {α : Type} {l : List α}
    (hnd : l.Nodup) (hall : ∀ x ∈ l, ∀ y ∈ l, x = y) : l.length ≤ 1 := by
  match l with
  | [] => simp
  | [a] => simp
  | a :: b :: t =>
      exfalso
      have hab : a = b := hall a (by simp) b (by simp)
      rw [List.nodup_cons] at hnd
      exact hnd.1 (hab ▸ List.mem_cons_self b t)

/-- Claim C3: the quorum-intersection heuristic returns, for fewer than 4
validators, true iff there are at least 3; for 4 or more, true iff every
organization holds strictly less than half of the validators and there are
at least 3 distinct organizations (missing organization ids count as the
single organization `"unknown"`).  In particular 4 validators all of one
organization give `false`, and 4 validators of 4 distinct organizations
give `true`. -/
theorem analyzeQuorumIntersection_spec (vs : List Node) :
    (vs.length < 4 → (analyzeQuorumIntersection vs = true ↔ 3 ≤ vs.length))
    ∧ (4 ≤ vs.length →
        (analyzeQuorumIntersection vs = true ↔
          ((∀ o ∈ (vs.map orgKeyQ).dedup, 2 * (vs.map orgKeyQ).count o < vs.length)
            ∧ 3 ≤ (vs.map orgKeyQ).dedup.length)))
    ∧ (vs.length = 4 → (∀ v ∈ vs, ∀ w ∈ vs, orgKeyQ v = orgKeyQ w) →
        analyzeQuorumIntersection vs = false)
    ∧ (vs.length = 4 → (vs.map orgKeyQ).Nodup → analyzeQuorumIntersection vs = true) := by
  have hmain : 4 ≤ vs.length →
      (analyzeQuorumIntersection vs = true ↔
        ((∀ o ∈ (vs.map orgKeyQ).dedup, 2 * (vs.map orgKeyQ).count o < vs.length)
          ∧ 3 ≤ (vs.map orgKeyQ).dedup.length)) := by
    intro h4
    rw [analyzeQuorumIntersection, if_neg (by omega)]
    simp only [Bool.and_eq_true, decide_eq_true_eq, ge_iff_le]
    have h1 : (((((vs.map orgKeyQ).dedup.map (fun o => (vs.map orgKeyQ).count o)).foldr max 0 : ℕ) : ℚ)
        < (vs.length : ℚ) * (1/2)) ↔
        2 * ((vs.map orgKeyQ).dedup.map (fun o => (vs.map orgKeyQ).count o)).foldr max 0
          < vs.length := by
      constructor
      · intro h
        have h2 : ((2 * ((vs.map orgKeyQ).dedup.map
            (fun o => (vs.map orgKeyQ).count o)).foldr max 0 : ℕ) : ℚ)
            < ((vs.length : ℕ) : ℚ) := by push_cast; linarith
        exact_mod_cast h2
      · intro h
        have h2 : ((2 * ((vs.map orgKeyQ).dedup.map
            (fun o => (vs.map orgKeyQ).count o)).foldr max 0 : ℕ) : ℚ)
            < ((vs.length : ℕ) : ℚ) := by exact_mod_cast h
        push_cast at h2
        linarith
    rw [h1, foldr_max_twice_lt_iff _ _ (by omega)]
    constructor
    · rintro ⟨hmax, horg⟩
      exact ⟨fun o ho => hmax _ (List.mem_map_of_mem _ ho), horg⟩
    · rintro ⟨hall, horg⟩
      refine ⟨?_, horg⟩
      intro x hx
      obtain ⟨o, ho, rfl⟩ := List.mem_map.mp hx
      exact hall o ho
  refine ⟨?_, hmain, ?_, ?_⟩
  · intro hlt
    rw [analyzeQuorumIntersection, if_pos hlt]
    simp
  · intro hlen hall
    have h4 : 4 ≤ vs.length := by omega
    rw [Bool.eq_false_iff]
    intro htrue
    have hrhs := (hmain h4).mp htrue
    have hnd := (vs.map orgKeyQ).nodup_dedup
    have hle : (vs.map orgKeyQ).dedup.length ≤ 1 := by
      apply length_le_one_of_nodup_of_all_eq hnd
      intro x hx y hy
      obtain ⟨v, hv, rfl⟩ := List.mem_map.mp ((vs.map orgKeyQ).dedup_subset hx)
      obtain ⟨w, hw, rfl⟩ := List.mem_map.mp ((vs.map orgKeyQ).dedup_subset hy)
      exact hall v hv w hw
    omega
  · intro hlen hnodup
    have h4 : 4 ≤ vs.length := by omega
    rw [hmain h4]
    rw [List.dedup_eq_self.mpr hnodup]
    constructor
    · intro o ho
      have hcount : (vs.map orgKeyQ).count o ≤ 1 :=
        List.nodup_iff_count_le_one.mp hnodup o
      have : (vs.map orgKeyQ).length = 4 := by simpa using hlen
      omega
    · have : (vs.map orgKeyQ).length = 4 := by simpa using hlen
      omega

end StellarMon

/-- Four validators in four distinct organizations, instantiating the
quorum-intersection theorem. -/
def c3Nodes : List StellarMon.Node :=
  [ { publicKey := "GA1", organizationId := some "org1", active := true, overLoaded := false, validating := true },
    { publicKey := "GA2", organizationId := some "org2", active := true, overLoaded := false, validating := true },
    { publicKey := "GA3", organizationId := some "org3", active := true, overLoaded := false, validating := true },
    { publicKey := "GA4", organizationId := some "org4", active := true, overLoaded := false, validating := true } ]

namespace StellarMon

theorem analyzeQuorumIntersection_spec_witness :
    c3Nodes.length = 4 ∧ (c3Nodes.map orgKeyQ).Nodup
    ∧ analyzeQuorumIntersection c3Nodes = true :=
  ⟨by decide, by decide,
    (analyzeQuorumIntersection_spec c3Nodes).2.2.2 (by decide) (by decide)⟩

end StellarMon

/-- Two snapshots with full uptime, instantiating the uptime-trend theorem. -/
def c5Snapshots : List StellarMon.NodeSnapshot :=
  [ { dateCreated := "2024-01-02T00:00:00.000Z", active := true, uptime := some 100 },
    { dateCreated := "2024-01-01T00:00:00.000Z", active := true, uptime := some 100 } ]

namespace StellarMon

theorem calculateUptimeTrend_spec_witness :
    2 ≤ c5Snapshots.length
    ∧ (c5Snapshots.take (min 10 c5Snapshots.length)).length = min 10 c5Snapshots.length :=
  ⟨by decide, ((calculateUptimeTrend_spec c5Snapshots).2 (by decide)).1⟩

/-- `NetworkTools.calculateNetworkHealthScore` (`src/tools/network.ts`):
`activeRatio*80 - overloadRatio*30 + min(validatorRatio*20, 20)` clamped to
[0,100]; zero nodes give 0. -/
def calculateNetworkHealthScore (nodes : List Node) : ℚ :=
  if nodes.length = 0 then 0
  else
    let activeNodes := (nodes.filter (·.active)).length
    let overloadedNodes := (nodes.filter (·.overLoaded)).length
    let validators := (nodes.filter (·.validating)).length
    let activeRatio := (activeNodes : ℚ) / (nodes.length : ℚ)
    let overloadPenalty := ((overloadedNodes : ℚ) / (nodes.length : ℚ)) * 30
    let validatorBonus := min (((validators : ℚ) / (nodes.length : ℚ)) * 20) 20
    max 0 (min 100 (activeRatio * 80 - overloadPenalty + validatorBonus))

/-- The same score as a function of the four counts (active, overloaded,
validator, total), used to state monotonicity in the active count. -/
def networkHealthScoreOfCounts (a o v n : ℕ) : ℚ :=
  max 0 (min 100 ((a : ℚ) / (n : ℚ) * 80 - (o : ℚ) / (n : ℚ) * 30
    + min ((v : ℚ) / (n : ℚ) * 20) 20))

/-- Claim C4: `calculateNetworkHealthScore` returns 0 on the empty list, and
otherwise `activeRatio*80 - overloadRatio*30 + min(validatorRatio*20, 20)`
clamped to [0,100]; the result is always within [0,100]; and, holding the
total, overloaded and validator counts fixed, the score is monotonically
non-decreasing in the number of active nodes. -/
theorem calculateNetworkHealthScore_spec (nodes : List Node) :
    (nodes = [] → calculateNetworkHealthScore nodes = 0)
    ∧ (nodes ≠ [] → calculateNetworkHealthScore nodes
        = networkHealthScoreOfCounts (nodes.filter (·.active)).length
            (nodes.filter (·.overLoaded)).length
            (nodes.filter (·.validating)).length nodes.length)
    ∧ (0 ≤ calculateNetworkHealthScore nodes ∧ calculateNetworkHealthScore nodes ≤ 100)
    ∧ (∀ a a' o v n : ℕ, a ≤ a' →
        networkHealthScoreOfCounts a o v n ≤ networkHealthScoreOfCounts a' o v n) := by
  have hrepr : nodes ≠ [] → calculateNetworkHealthScore nodes
      = networkHealthScoreOfCounts (nodes.filter (·.active)).length
          (nodes.filter (·.overLoaded)).length
          (nodes.filter (·.validating)).length nodes.length := by
    intro h
    rw [calculateNetworkHealthScore,
      if_neg (by simpa using List.length_eq_zero.not.mpr h)]
    rfl
  refine ⟨?_, hrepr, ?_, ?_⟩
  · intro h
    simp [calculateNetworkHealthScore, h]
  · rcases eq_or_ne nodes [] with h | h
    · simp [calculateNetworkHealthScore, h]
    · rw [hrepr h]
      unfold networkHealthScoreOfCounts
      exact ⟨le_max_left 0 _,
        max_le (by norm_num) (le_trans (min_le_left _ _) (by norm_num))⟩
  · intro a a' o v n haa
    unfold networkHealthScoreOfCounts
    rcases Nat.eq_zero_or_pos n with hn | hn
    · subst hn
      simp
    · have hn0 : (0 : ℚ) < (n : ℚ) := by exact_mod_cast hn
      have hdiv : (a : ℚ) / (n : ℚ) ≤ (a' : ℚ) / (n : ℚ) :=
        (div_le_div_iff_of_pos_right hn0).mpr (by exact_mod_cast haa)
      exact max_le_max le_rfl (min_le_min le_rfl (by linarith))

end StellarMon

namespace StellarMon

theorem calculateNetworkHealthScore_spec_witness :
    ([c2Node] : List Node) ≠ []
    ∧ calculateNetworkHealthScore [c2Node]
        = networkHealthScoreOfCounts (([c2Node] : List Node).filter (·.active)).length
            (([c2Node] : List Node).filter (·.overLoaded)).length
            (([c2Node] : List Node).filter (·.validating)).length ([c2Node] : List Node).length
    ∧ networkHealthScoreOfCounts 0 0 1 1 ≤ networkHealthScoreOfCounts 1 0 1 1 :=
  ⟨by decide, (calculateNetworkHealthScore_spec [c2Node]).2.1 (by decide),
    (calculateNetworkHealthScore_spec [c2Node]).2.2.2 0 1 0 1 1 (by decide)⟩

/-- Result of the consensus check (`src/types/index.ts`,
`NetworkConsensusInfo`). -/
structure NetworkConsensusInfo where
  healthy : Bool
  issues : List String
  quorumIntersection : Bool
  safetyLevel : ℤ
deriving Repr, DecidableEq

/-- `NetworkTools.calculateSafetyLevel` (`src/tools/network.ts`):
`max(0, min(validators*10, 100) - issues*15)`. -/
def calculateSafetyLevel (validators : List Node) (issueCount : ℕ) : ℤ :=
  let baseScore : ℤ := min ((validators.length : ℤ) * 10) 100
  let penalty : ℤ := (issueCount : ℤ) * 15
  max 0 (baseScore - penalty)

/-- Core of `NetworkTools.handleCheckNetworkConsensus`
(`src/tools/network.ts`): active validators, accumulated issues (fewer than
3 active validators; overloaded validators; failed quorum-intersection
heuristic), the intersection flag and the safety level. -/
def handleCheckNetworkConsensus (nodes : List Node) : NetworkConsensusInfo :=
  let validators := nodes.filter (fun n => n.validating && n.active)
  let issues1 : List String :=
    if validators.length < 3 then
      ["Insufficient number of active validators for safe consensus"]
    else []
  let overloadedValidators := validators.filter (·.overLoaded)
  let issues2 := issues1 ++
    (if overloadedValidators.length > 0 then
      [toString overloadedValidators.length ++ " validators are overloaded"]
    else [])
  let quorumIntersection := analyzeQuorumIntersection validators
  let issues3 := issues2 ++
    (if !quorumIntersection then ["Potential quorum intersection issues detected"] else [])
  { healthy := issues3.length = 0
    issues := issues3
    quorumIntersection := quorumIntersection
    safetyLevel := calculateSafetyLevel validators issues3.length }

/-- Claim C10: every `NetworkConsensusInfo` produced by the consensus check
has `healthy = true` exactly when the issue list is empty, and a safety
level equal to `max(0, min(activeValidatorCount*10, 100) - issueCount*15)`,
which always lies in [0,100]. -/
theorem checkNetworkConsensus_spec (nodes : List Node) :
    ((handleCheckNetworkConsensus nodes).healthy = true
      ↔ (handleCheckNetworkConsensus nodes).issues = [])
    ∧ (handleCheckNetworkConsensus nodes).safetyLevel
        = max 0 (min (((nodes.filter (fun n => n.validating && n.active)).length : ℤ) * 10) 100
            - ((handleCheckNetworkConsensus nodes).issues.length : ℤ) * 15)
    ∧ 0 ≤ (handleCheckNetworkConsensus nodes).safetyLevel
    ∧ (handleCheckNetworkConsensus nodes).safetyLevel ≤ 100 := by
  refine ⟨?_, rfl, ?_, ?_⟩
  · show (decide _ = true) ↔ _
    rw [decide_eq_true_eq, List.length_eq_zero]
    exact Iff.rfl
  · exact le_max_left 0 _
  · show max 0 (min _ 100 - _) ≤ 100
    have h0 : (0 : ℤ) ≤ ((handleCheckNetworkConsensus nodes).issues.length : ℤ) * 15 := by
      positivity
    omega

end StellarMon

namespace StellarMon

/-- Severity assigned to a node by `NodeTools.handleFindFailingNodes`
(`src/tools/nodes.ts:477-503`): starts `"warning"` and is escalated to
`"critical"` by the same sequence of checks as the source loop. -/
def failingSeverity (node : Node) : String :=
  let severity := "warning"
  let severity := if !node.active then "critical" else severity
  let severity :=
    if node.overLoaded then (if node.validating then "critical" else severity) else severity
  let severity :=
    match node.uptime with
    | some u => if u < 90 then (if u < 80 then "critical" else severity) else severity
    | none => severity
  if node.validating && !node.active then "critical" else severity

/-- Issues collected for a node by `handleFindFailingNodes`
(`src/tools/nodes.ts:477-503`). -/
def failingIssues (node : Node) : List String :=
  (if !node.active then ["Node is offline"] else [])
  ++ (if node.overLoaded then ["Node is overloaded"] else [])
  ++ (match node.uptime with
      | some u => if u < 90 then ["Low uptime: " ++ toString u ++ "%"] else []
      | none => [])
  ++ (if node.validating && !node.active then ["Validator is offline"] else [])

/-- The severity filter of `handleFindFailingNodes`
(`src/tools/nodes.ts:506-508`): `!args.severity || args.severity === 'all'
|| (critical && critical) || (warning && {warning,critical})`. -/
def passesSeverityFilter (filt : Option String) (sev : String) : Bool :=
  !strTruthy filt || filt == some "all"
    || (filt == some "critical" && sev == "critical")
    || (filt == some "warning" && (sev == "warning" || sev == "critical"))

/-- The node projection pushed by `handleFindFailingNodes`
(`src/tools/nodes.ts:510-518`). -/
structure FailingNodeSummary where
  publicKey : String
  name : Option String
  host : Option String
  active : Bool
  validating : Bool
  overLoaded : Bool
  uptime : Option ℚ
  organizationId : Option String
deriving Repr, DecidableEq

/-- One entry of the failing-node output. -/
structure FailingEntry where
  node : FailingNodeSummary
  issues : List String
  severity : String
deriving Repr, DecidableEq

/-- Summary block of the failing-node output (`src/tools/nodes.ts:529-534`). -/
structure FailingSummary where
  total : ℕ
  critical : ℕ
  warning : ℕ
  validatorsAffected : ℕ
deriving Repr, DecidableEq

/-- Result of `handleFindFailingNodes`. -/
structure FindFailingResult where
  failingNodes : List FailingEntry
  summary : FailingSummary
deriving Repr, DecidableEq

def failingNodeSummary (node : Node) : FailingNodeSummary :=
  { publicKey := node.publicKey, name := node.name, host := node.host,
    active := node.active, validating := node.validating,
    overLoaded := node.overLoaded, uptime := node.uptime,
    organizationId := node.organizationId }

/-- `NodeTools.handleFindFailingNodes` (`src/tools/nodes.ts:464-540`): a node
is pushed when it has at least one issue and its severity passes the
caller's filter. -/
def handleFindFailingNodes (nodes : List Node) (severity : Option String) :
    FindFailingResult :=
  let failingNodes := nodes.filterMap (fun node =>
    let issues := failingIssues node
    let sev := failingSeverity node
    if issues.length > 0 && passesSeverityFilter severity sev then
      some { node := failingNodeSummary node, issues := issues, severity := sev }
    else none)
  { failingNodes := failingNodes
    summary :=
      { total := failingNodes.length
        critical := (failingNodes.filter (fun fn => fn.severity == "critical")).length
        warning := (failingNodes.filter (fun fn => fn.severity == "warning")).length
        validatorsAffected := (failingNodes.filter (fun fn => fn.node.validating)).length } }

/-- The claim's criticality condition: inactive, or overloaded while
validating, or defined uptime below 80, or validating but not active. -/
def specCriticalB (node : Node) : Bool :=
  !node.active || (node.overLoaded && node.validating)
    || (match node.uptime with | some u => decide (u < 80) | none => false)
    || (node.validating && !node.active)

/-- The claim's has-an-issue condition: inactive, or overloaded, or defined
uptime below 90, or validating but not active. -/
def specHasIssueB (node : Node) : Bool :=
  !node.active || node.overLoaded
    || (match node.uptime with | some u => decide (u < 90) | none => false)
    || (node.validating && !node.active)

/-- The claim's filter semantics: no filter or `all` admits everything,
`critical` admits only critical, `warning` admits warning and critical. -/
def specAdmitsB (filt : Option String) (sev : String) : Bool :=
  match filt with
  | none => true
  | some f =>
      if f = "all" then true
      else if f = "critical" then sev == "critical"
      else if f = "warning" then sev == "warning" || sev == "critical"
      else false

/-- Claim C6: in failing-node detection the severity starts `"warning"` and
is `"critical"` exactly when the node is inactive, or overloaded while
validating, or has defined uptime below 80, or is validating but not active
(uptime below 90 only adds a warning-level issue); a node has an issue
exactly under the claim's has-issue condition; and for the documented
filter values (`none`/`all`/`critical`/`warning`) the output consists
exactly of the nodes with at least one issue whose severity is admitted by
the filter. -/
theorem findFailingNodes_spec (nodes : List Node) (filt : Option String)
    (hfilt : filt = none ∨ filt = some "all" ∨ filt = some "critical"
      ∨ filt = some "warning") :
    (∀ node : Node,
      (failingSeverity node = "critical" ↔ specCriticalB node = true)
      ∧ (failingSeverity node = "critical" ∨ failingSeverity node = "warning")
      ∧ (failingIssues node ≠ [] ↔ specHasIssueB node = true))
    ∧ (handleFindFailingNodes nodes filt).failingNodes
        = nodes.filterMap (fun node =>
            if specHasIssueB node && specAdmitsB filt (failingSeverity node) then
              some { node := failingNodeSummary node, issues := failingIssues node,
                     severity := failingSeverity node }
            else none) := by
  have hnode : ∀ node : Node,
      (failingSeverity node = "critical" ↔ specCriticalB node = true)
      ∧ (failingSeverity node = "critical" ∨ failingSeverity node = "warning")
      ∧ (failingIssues node ≠ [] ↔ specHasIssueB node = true) := by
    intro node
    rcases node with ⟨pk, nm, hst, org, active, over, val, ver, uptime, geo, st⟩
    cases uptime <;> cases active <;> cases over <;> cases val <;>
      simp [failingSeverity, failingIssues, specCriticalB, specHasIssueB] <;>
      split_ifs <;> simp_all <;> linarith
  refine ⟨hnode, ?_⟩
  have hfun : ∀ node : Node,
      (if (failingIssues node).length > 0 && passesSeverityFilter filt (failingSeverity node) then
        some { node := failingNodeSummary node, issues := failingIssues node,
               severity := failingSeverity node }
      else (none : Option FailingEntry))
      = (if specHasIssueB node && specAdmitsB filt (failingSeverity node) then
          some { node := failingNodeSummary node, issues := failingIssues node,
                 severity := failingSeverity node }
        else none) := by
    intro node
    have hiss : ((failingIssues node).length > 0) ↔ specHasIssueB node = true := by
      rw [← (hnode node).2.2]
      exact List.length_pos
    have hpass : passesSeverityFilter filt (failingSeverity node)
        = specAdmitsB filt (failingSeverity node) := by
      rcases hfilt with rfl | rfl | rfl | rfl <;>
        simp [passesSeverityFilter, specAdmitsB, strTruthy]
    have hb : decide ((failingIssues node).length > 0) = specHasIssueB node := by
      by_cases hP : (failingIssues node).length > 0
      · simp [hP, hiss.mp hP]
      · simp only [hP, decide_eq_false_iff_not, decide_eq_true_eq]
        cases hsp : specHasIssueB node
        · simp
        · exact absurd (hiss.mpr hsp) hP
    simp only [hpass, hb]
  show nodes.filterMap _ = nodes.filterMap _
  rw [funext hfun]

end StellarMon

/-- A single offline validator, instantiating the failing-node theorem. -/
def c6Nodes : List StellarMon.Node :=
  [ { publicKey := "GAOFF", active := false, overLoaded := false,
      validating := true, uptime := some 50 } ]

namespace StellarMon

theorem findFailingNodes_spec_witness :
    (some "warning" = (none : Option String) ∨ some "warning" = some "all"
      ∨ some "warning" = some "critical" ∨ some "warning" = some "warning")
    ∧ (handleFindFailingNodes c6Nodes (some "warning")).failingNodes
        = c6Nodes.filterMap (fun node =>
            if specHasIssueB node && specAdmitsB (some "warning") (failingSeverity node) then
              some { node := failingNodeSummary node, issues := failingIssues node,
                     severity := failingSeverity node }
            else none) :=
  ⟨by decide, (findFailingNodes_spec c6Nodes (some "warning") (by decide)).2⟩

end StellarMon

namespace StellarMon

/-- `OrganizationTools.getReliabilityGrade` (`src/tools/organizations.ts`). -/
def getReliabilityGrade (score : ℤ) : String :=
  if score ≥ 95 then "A+"
  else if score ≥ 90 then "A"
  else if score ≥ 85 then "B+"
  else if score ≥ 80 then "B"
  else if score ≥ 75 then "C+"
  else if score ≥ 70 then "C"
  else if score ≥ 60 then "D"
  else "F"

/-- JavaScript `Number.prototype.toFixed(1)` on a rational: one decimal,
ties away from zero (used only inside issue strings). -/
def jsToFixed1 (q : ℚ) : String :=
  let n : ℤ := if q ≥ 0 then ⌊q * 10 + 1/2⌋ else -⌊-q * 10 + 1/2⌋
  (if n < 0 then "-" else "") ++ toString (n.natAbs / 10) ++ "." ++ toString (n.natAbs % 10)

/-- The reliability block returned by the organization analysis
(`src/tools/organizations.ts`). -/
structure ReliabilityInfo where
  score : ℤ
  grade : String
  issues : List String
deriving Repr, DecidableEq

/-- `OrganizationTools.calculateOrganizationReliability`
(`src/tools/organizations.ts:304-357`): start from 100; deduct
`(0.9-activeRatio)*50` when activeRatio < 0.9, `(95-avgUptime)*2` when
avgUptime < 95, `overloadRatio*30` when overloadRatio > 0.1, and a flat 20
when there are validators whose active ratio falls below 0.95; clamp to
≥ 0 and round; grade the rounded score. -/
def calculateOrganizationReliability (allNodes activeNodes validators overloadedNodes : List Node)
    (averageUptime : ℚ) : ReliabilityInfo :=
  let score0 : ℚ := 100
  let issues0 : List String := []
  let activeRatio : ℚ := (activeNodes.length : ℚ) / (allNodes.length : ℚ)
  let (score1, issues1) :=
    if activeRatio < 9/10 then
      (score0 - (9/10 - activeRatio) * 50,
        issues0 ++ ["Low active node ratio: " ++ toString (jsRound (activeRatio * 100)) ++ "%"])
    else (score0, issues0)
  let (score2, issues2) :=
    if averageUptime < 95 then
      (score1 - (95 - averageUptime) * 2,
        issues1 ++ ["Low average uptime: " ++ jsToFixed1 averageUptime ++ "%"])
    else (score1, issues1)
  let overloadRatio : ℚ := (overloadedNodes.length : ℚ) / (allNodes.length : ℚ)
  let (score3, issues3) :=
    if overloadRatio > 1/10 then
      (score2 - overloadRatio * 30,
        issues2 ++ ["High overload ratio: " ++ toString (jsRound (overloadRatio * 100)) ++ "%"])
    else (score2, issues2)
  let (score4, issues4) :=
    if validators.length > 0 then
      let validatorActiveRatio : ℚ :=
        ((validators.filter (·.active)).length : ℚ) / (validators.length : ℚ)
      if validatorActiveRatio < 19/20 then
        (score3 - 20, issues3 ++ ["Validator downtime detected"])
      else (score3, issues3)
    else (score3, issues3)
  let finalScore := max 0 (jsRound score4)
  { score := finalScore, grade := getReliabilityGrade finalScore, issues := issues4 }

/-- `(node.statistics?.validating24HoursPercentage || 0)`. -/
def statV24 (n : Node) : ℚ :=
  match n.statistics with
  | some st => st.validating24HoursPercentage.getD 0
  | none => 0

/-- `(node.statistics?.validating30DaysPercentage || 0)`. -/
def statV30 (n : Node) : ℚ :=
  match n.statistics with
  | some st => st.validating30DaysPercentage.getD 0
  | none => 0

/-- The validator test of `handleAnalyzeOrganizationReliability`
(`src/tools/organizations.ts:208-211`). -/
def statValidatingB (n : Node) : Bool :=
  statV24 n > 0 || statV30 n > 0

/-- Node-count block of the organization analysis. -/
structure OrgNodeStatistics where
  total : ℕ
  active : ℕ
  validators : ℕ
  overloaded : ℕ
deriving Repr, DecidableEq

/-- Result of the organization reliability analysis (the `performance`
block, which the analysed claim does not mention, is omitted). -/
structure OrgReliabilityResult where
  organizationId : String
  reliability : ReliabilityInfo
  nodeStatistics : OrgNodeStatistics
deriving Repr, DecidableEq

/-- The organization's nodes, as selected by
`handleAnalyzeOrganizationReliability` (`src/tools/organizations.ts:187`). -/
def orgNodesOf (allNodes : List Node) (orgId : String) : List Node :=
  allNodes.filter (fun node => node.organizationId == some orgId)

/-- The average uptime over the organization's nodes with a defined uptime
(`src/tools/organizations.ts:213-217`); 0 when no node reports one. -/
def orgAverageUptime (orgNodes : List Node) : ℚ :=
  let nodesWithUptime := orgNodes.filter (fun n => n.uptime.isSome)
  if nodesWithUptime.length > 0 then
    (nodesWithUptime.map (fun n => n.uptime.getD 0)).sum / (nodesWithUptime.length : ℚ)
  else 0

/-- Core of `OrganizationTools.handleAnalyzeOrganizationReliability`
(`src/tools/organizations.ts:168-245`): select the organization's nodes,
return the fixed zero-node result when there are none, and otherwise
compute the reliability from the derived node sets and the average uptime
over the nodes with a defined uptime. -/
def handleAnalyzeOrganizationReliability (allNodes : List Node) (orgId : String) :
    OrgReliabilityResult :=
  let orgNodes := orgNodesOf allNodes orgId
  if orgNodes.length = 0 then
    { organizationId := orgId
      reliability :=
        { score := 0, grade := "N/A", issues := ["No nodes found for this organization"] }
      nodeStatistics := { total := 0, active := 0, validators := 0, overloaded := 0 } }
  else
    let activeNodes := orgNodes.filter (·.active)
    let validators := orgNodes.filter statValidatingB
    let overloadedNodes := orgNodes.filter (·.overLoaded)
    { organizationId := orgId
      reliability := calculateOrganizationReliability orgNodes activeNodes validators
        overloadedNodes (orgAverageUptime orgNodes)
      nodeStatistics :=
        { total := orgNodes.length, active := activeNodes.length,
          validators := validators.length, overloaded := overloadedNodes.length } }

/-- The total deduction of the organization reliability score, written as
the spec lists it. -/
def orgReliabilityDeduction (activeRatio avgUptime overloadRatio : ℚ)
    (validatorCount validatorActiveCount : ℕ) : ℚ :=
  (if activeRatio < 9/10 then (9/10 - activeRatio) * 50 else 0)
  + (if avgUptime < 95 then (95 - avgUptime) * 2 else 0)
  + (if overloadRatio > 1/10 then overloadRatio * 30 else 0)
  + (if validatorCount > 0 then
      (if (validatorActiveCount : ℚ) / (validatorCount : ℚ) < 19/20 then 20 else 0)
     else 0)

theorem calculateOrganizationReliability_grade
    (allNodes activeNodes validators overloadedNodes : List Node) (avg : ℚ) :
    (calculateOrganizationReliability allNodes activeNodes validators overloadedNodes avg).grade
      = getReliabilityGrade
          (calculateOrganizationReliability allNodes activeNodes validators overloadedNodes avg).score := rfl

theorem calculateOrganizationReliability_score
    (allNodes activeNodes validators overloadedNodes : List Node) (avg : ℚ) :
    (calculateOrganizationReliability allNodes activeNodes validators overloadedNodes avg).score
      = max 0 (jsRound (100 - orgReliabilityDeduction
          ((activeNodes.length : ℚ) / (allNodes.length : ℚ)) avg
          ((overloadedNodes.length : ℚ) / (allNodes.length : ℚ))
          validators.length (validators.filter (·.active)).length)) := by
  unfold calculateOrganizationReliability orgReliabilityDeduction
  dsimp only
  split_ifs <;> (congr 1; ring_nf)

end StellarMon

namespace StellarMon

/-- Claim C7: for an organization with at least one node the reliability
score is 100 minus the deductions ((0.9-activeRatio)*50 when activeRatio <
0.9, (95-avgUptime)*2 when avgUptime < 95, overloadRatio*30 when
overloadRatio > 0.1, a flat 20 when the organization has validators with an
active ratio below 0.95), clamped to ≥ 0 and rounded, and the letter grade
applies the bands (≥95 A+, ≥90 A, ≥85 B+, ≥80 B, ≥75 C+, ≥70 C, ≥60 D,
else F) to that score; an organization with zero nodes gets score 0, grade
"N/A" and the single issue "No nodes found for this organization". -/
theorem organizationReliability_spec (allNodes : List Node) (orgId : String) :
    (orgNodesOf allNodes orgId = [] →
      (handleAnalyzeOrganizationReliability allNodes orgId).reliability
        = { score := 0, grade := "N/A",
            issues := ["No nodes found for this organization"] })
    ∧ (orgNodesOf allNodes orgId ≠ [] →
        (handleAnalyzeOrganizationReliability allNodes orgId).reliability.score
          = max 0 (jsRound (100 - orgReliabilityDeduction
              ((((orgNodesOf allNodes orgId).filter (·.active)).length : ℚ)
                / ((orgNodesOf allNodes orgId).length : ℚ))
              (orgAverageUptime (orgNodesOf allNodes orgId))
              ((((orgNodesOf allNodes orgId).filter (·.overLoaded)).length : ℚ)
                / ((orgNodesOf allNodes orgId).length : ℚ))
              ((orgNodesOf allNodes orgId).filter statValidatingB).length
              (((orgNodesOf allNodes orgId).filter statValidatingB).filter (·.active)).length))
        ∧ (handleAnalyzeOrganizationReliability allNodes orgId).reliability.grade
          = (if (handleAnalyzeOrganizationReliability allNodes orgId).reliability.score ≥ 95 then "A+"
             else if (handleAnalyzeOrganizationReliability allNodes orgId).reliability.score ≥ 90 then "A"
             else if (handleAnalyzeOrganizationReliability allNodes orgId).reliability.score ≥ 85 then "B+"
             else if (handleAnalyzeOrganizationReliability allNodes orgId).reliability.score ≥ 80 then "B"
             else if (handleAnalyzeOrganizationReliability allNodes orgId).reliability.score ≥ 75 then "C+"
             else if (handleAnalyzeOrganizationReliability allNodes orgId).reliability.score ≥ 70 then "C"
             else if (handleAnalyzeOrganizationReliability allNodes orgId).reliability.score ≥ 60 then "D"
             else "F")) := by
  constructor
  · intro h
    rw [handleAnalyzeOrganizationReliability,
      if_pos (by rw [List.length_eq_zero]; exact h)]
  · intro h
    have hlen : ¬ (orgNodesOf allNodes orgId).length = 0 := by
      rw [List.length_eq_zero]; exact h
    rw [handleAnalyzeOrganizationReliability]
    rw [if_neg hlen]
    exact ⟨calculateOrganizationReliability_score _ _ _ _ _,
      calculateOrganizationReliability_grade _ _ _ _ _⟩

end StellarMon

namespace StellarMon

theorem organizationReliability_spec_witness :
    orgNodesOf [] "org1" = []
    ∧ (handleAnalyzeOrganizationReliability [] "org1").reliability
        = { score := 0, grade := "N/A",
            issues := ["No nodes found for this organization"] }
    ∧ orgNodesOf c3Nodes "org1" ≠ []
    ∧ (handleAnalyzeOrganizationReliability c3Nodes "org1").reliability.score
        = max 0 (jsRound (100 - orgReliabilityDeduction
            ((((orgNodesOf c3Nodes "org1").filter (·.active)).length : ℚ)
              / ((orgNodesOf c3Nodes "org1").length : ℚ))
            (orgAverageUptime (orgNodesOf c3Nodes "org1"))
            ((((orgNodesOf c3Nodes "org1").filter (·.overLoaded)).length : ℚ)
              / ((orgNodesOf c3Nodes "org1").length : ℚ))
            ((orgNodesOf c3Nodes "org1").filter statValidatingB).length
            (((orgNodesOf c3Nodes "org1").filter statValidatingB).filter (·.active)).length)) :=
  ⟨rfl, (organizationReliability_spec [] "org1").1 rfl, by decide,
    ((organizationReliability_spec c3Nodes "org1").2 (by decide)).1⟩

end StellarMon

namespace StellarMon

/-- The network-statistics average uptime
(`src/tools/network.ts`, `handleGetNetworkStatistics`): nodes with an
undefined uptime are dropped before averaging. -/
def networkStatisticsAverageUptime (nodes : List Node) : ℚ :=
  let uptimes := (nodes.filter (fun n => n.uptime.isSome)).map (fun n => n.uptime.getD 0)
  if uptimes.length > 0 then uptimes.sum / (uptimes.length : ℚ) else 0

/-- `NodeTools.calculateAverageUptime` (`src/tools/nodes.ts:974-978`):
`uptime || 0` then keep the strictly positive values. -/
def calculateAverageUptime (nodes : List Node) : ℚ :=
  if nodes.length = 0 then 0
  else
    let uptimes := (nodes.map (fun n => n.uptime.getD 0)).filter (fun u => u > 0)
    if uptimes.length > 0 then uptimes.sum / (uptimes.length : ℚ) else 0

/-- `NodeTools.calculateMedianUptime` (`src/tools/nodes.ts:980-986`); the
in-range indexing of the source is modelled with `getD _ 0`. -/
def calculateMedianUptime (nodes : List Node) : ℚ :=
  let uptimes := ((nodes.map (fun n => n.uptime.getD 0)).filter (fun u => u > 0)).mergeSort
    (fun a b => a ≤ b)
  if uptimes.length = 0 then 0
  else
    let mid := uptimes.length / 2
    if uptimes.length % 2 = 0 then (uptimes.getD (mid - 1) 0 + uptimes.getD mid 0) / 2
    else uptimes.getD mid 0

/-- Modelled from the spec's invariant wording for comparison with
`calculateUptimeTrend`: the same windows, but a snapshot with an absent
uptime contributes to neither numerator nor denominator of the window
averages. -/
def uptimeTrendExcludingAbsent (snapshots : List NodeSnapshot) : String :=
  if snapshots.length < 2 then "insufficient_data"
  else
    let recentS := snapshots.take (min 10 snapshots.length)
    let olderS := snapshots.drop (snapshots.length - min 10 snapshots.length)
    let ru := recentS.filterMap (fun s => s.uptime)
    let ou := olderS.filterMap (fun s => s.uptime)
    let recentAvg := if ru.length > 0 then ru.sum / (ru.length : ℚ) else 0
    let olderAvg := if ou.length > 0 then ou.sum / (ou.length : ℚ) else 0
    let difference := recentAvg - olderAvg
    if difference > 2 then "improving"
    else if difference < -2 then "declining"
    else "stable"

theorem positive_uptimes_filter_eq (nodes : List Node) :
    ((nodes.filter (fun n => n.uptime.isSome)).map (fun n => n.uptime.getD 0)).filter
        (fun u => u > 0)
      = (nodes.map (fun n => n.uptime.getD 0)).filter (fun u => u > 0) := by
  induction nodes with
  | nil => rfl
  | cons n t ih =>
      cases hu : n.uptime with
      | none =>
          simp only [List.filter_cons, List.map_cons, hu]
          have : ((none : Option ℚ).getD 0 > 0) = False := by norm_num
          simp [this, ih]
      | some u =>
          by_cases hpos : u > 0
          · simp [List.filter_cons, hu, hpos, ih]
          · simp [List.filter_cons, hu, hpos, ih]

end StellarMon

namespace StellarMon

/-- Claim C9 (amended): a node whose uptime is absent carries no weight in
the network-statistics average and in `calculateAverageUptime` /
`calculateMedianUptime` — removing such nodes never changes these results —
whereas the window averages of `calculateUptimeTrend` treat an absent
uptime exactly as an explicit 0%: replacing every absent uptime by 0 never
changes the computed trend. -/
theorem uptimeAveraging_spec (nodes : List Node) (snapshots : List NodeSnapshot) :
    networkStatisticsAverageUptime nodes
        = networkStatisticsAverageUptime (nodes.filter (fun n => n.uptime.isSome))
    ∧ calculateAverageUptime nodes
        = calculateAverageUptime (nodes.filter (fun n => n.uptime.isSome))
    ∧ calculateMedianUptime nodes
        = calculateMedianUptime (nodes.filter (fun n => n.uptime.isSome))
    ∧ calculateUptimeTrend snapshots
        = calculateUptimeTrend (snapshots.map
            (fun s => { s with uptime := some (s.uptime.getD 0) })) := by
  have hff : (nodes.filter (fun n => n.uptime.isSome)).filter (fun n => n.uptime.isSome)
      = nodes.filter (fun n => n.uptime.isSome) := by
    rw [List.filter_filter]
    exact List.filter_congr (fun a _ => Bool.and_self _)
  refine ⟨?_, ?_, ?_, ?_⟩
  · simp only [networkStatisticsAverageUptime, hff]
  · unfold calculateAverageUptime
    by_cases h0 : nodes.length = 0
    · have hnil : nodes = [] := List.length_eq_zero.mp h0
      subst hnil
      rfl
    · rw [if_neg h0]
      by_cases h1 : (nodes.filter (fun n => n.uptime.isSome)).length = 0
      · have hnil : nodes.filter (fun n => n.uptime.isSome) = [] := List.length_eq_zero.mp h1
        have hempty : (nodes.map (fun n => n.uptime.getD 0)).filter (fun u => u > 0) = [] := by
          rw [← positive_uptimes_filter_eq, hnil]
          rfl
        simp [hempty, h1]
      · rw [if_neg h1]
        simp only [← positive_uptimes_filter_eq nodes, hff]
  · simp only [calculateMedianUptime, ← positive_uptimes_filter_eq nodes, hff]
  · unfold calculateUptimeTrend
    simp only [List.length_map]
    by_cases h2 : snapshots.length < 2
    · simp [h2]
    · rw [if_neg h2, if_neg h2]
      have h3 : ∀ l : List NodeSnapshot,
          (l.map (fun s => ({ s with uptime := some (s.uptime.getD 0) } : NodeSnapshot))).map
            (fun s => s.uptime.getD 0) = l.map (fun s => s.uptime.getD 0) := by
        intro l
        rw [List.map_map]
        rfl
      rw [← List.map_take, ← List.map_drop, h3, h3, List.length_map, List.length_map]

end StellarMon

/-- Twenty snapshots (newest first): one recent snapshot with 100% uptime,
nine recent snapshots with absent uptime, ten older snapshots at 50%. -/
def c9Snapshots : List StellarMon.NodeSnapshot :=
  { active := true, uptime := some 100 }
    :: List.replicate 9 { active := true }
    ++ List.replicate 10 { active := true, uptime := some 50 }

namespace StellarMon

/-- Claim C9, counterexample: `calculateUptimeTrend` counts the nine
absent-uptime snapshots as 0% in the recent window (average 10 instead of
100), classifying the node as `"declining"`, while the claimed absent-means-
no-weight averaging classifies the same history as `"improving"`. -/
theorem uptimeTrend_absent_counterexample :
    calculateUptimeTrend c9Snapshots = "declining"
    ∧ uptimeTrendExcludingAbsent c9Snapshots = "improving" := by
  constructor <;>
    norm_num [calculateUptimeTrend, uptimeTrendExcludingAbsent, c9Snapshots,
      List.replicate, List.take, List.drop, List.filterMap, min_def]

end StellarMon

namespace StellarMon

/-- A decimal digit character. -/
def digitChar (n : ℕ) : Char := Char.ofNat (48 + n)

/-- Is `c` one of the characters `0`-`9`? -/
def isDigitChar (c : Char) : Bool := 48 ≤ c.toNat && c.toNat ≤ 57

/-- Two-digit zero-padded rendering (modulo 100), as `Date.toISOString`
prints month, day, hour, minute and second fields. -/
def pad2 (n : ℕ) : List Char := [digitChar (n / 10 % 10), digitChar (n % 10)]

/-- Three-digit zero-padded rendering (modulo 1000) for milliseconds. -/
def pad3 (n : ℕ) : List Char :=
  [digitChar (n / 100 % 10), digitChar (n / 10 % 10), digitChar (n % 10)]

/-- Four-digit zero-padded rendering (modulo 10000) for years. -/
def pad4 (n : ℕ) : List Char :=
  [digitChar (n / 1000 % 10), digitChar (n / 100 % 10), digitChar (n / 10 % 10),
    digitChar (n % 10)]

/-- A broken-down UTC instant, modelling the `Date` the dispatcher stamps
error envelopes with (`new Date()` in `src/index.ts:192`). -/
structure DateTimeRec where
  year : ℕ
  month : ℕ
  day : ℕ
  hour : ℕ
  minute : ℕ
  second : ℕ
  millisecond : ℕ
deriving Repr, DecidableEq

/-- `Date.prototype.toISOString` (external library function) on in-range
fields: `YYYY-MM-DDTHH:mm:ss.sssZ`. -/
def toISOString (d : DateTimeRec) : String :=
  String.mk (pad4 d.year ++ '-' :: pad2 d.month ++ '-' :: pad2 d.day
    ++ 'T' :: pad2 d.hour ++ ':' :: pad2 d.minute ++ ':' :: pad2 d.second
    ++ '.' :: pad3 d.millisecond ++ ['Z'])

/-- An ISO-8601 timestamp in the exact shape `toISOString` emits:
4-2-2 dashed date, `T`, 2:2:2 coloned time, 3-digit milliseconds, `Z`. -/
def isIsoTimestamp (s : String) : Bool :=
  match s.toList with
  | [y1, y2, y3, y4, '-', mo1, mo2, '-', d1, d2, 'T', h1, h2, ':', mi1, mi2, ':',
      s1, s2, '.', x1, x2, x3, 'Z'] =>
      [y1, y2, y3, y4, mo1, mo2, d1, d2, h1, h2, mi1, mi2, s1, s2, x1, x2, x3].all isDigitChar
  | _ => false

theorem isDigitChar_digitChar (n : ℕ) : isDigitChar (digitChar (n % 10)) = true := by
  have h : n % 10 < 10 := Nat.mod_lt _ (by norm_num)
  have hall : ∀ m : Fin 10, isDigitChar (digitChar m.val) = true := by decide
  exact hall ⟨n % 10, h⟩

theorem isIsoTimestamp_toISOString (d : DateTimeRec) :
    isIsoTimestamp (toISOString d) = true := by
  rcases d with ⟨y, mo, da, h, mi, s, ms⟩
  simp only [toISOString, pad4, pad3, pad2, List.cons_append, List.nil_append]
  simp only [isIsoTimestamp, String.toList]
  simp [List.all_cons, isDigitChar_digitChar]

end StellarMon

namespace StellarMon

/-- `NodeTools.handleCheckNodeHealth` as a fallible computation
(`src/tools/nodes.ts:412-462`): a client failure (`success: false`, carrying
an optional error string) is thrown as
`Error(response.error || 'Failed to fetch node for health check')` and the
handler's catch re-throws it prefixed with `Failed to check node health: `. -/
def handleCheckNodeHealthE (resp : Except (Option String) Node) :
    Except String HealthCheck :=
  match resp with
  | .ok node => .ok (checkNodeHealth node)
  | .error e =>
      .error ("Failed to check node health: "
        ++ (if strTruthy e then e.getD "" else "Failed to fetch node for health check"))

/-- The error envelope of the tool dispatcher
(`src/index.ts:185-197`): `{error, tool, timestamp}`. -/
structure ErrorEnvelope where
  error : String
  tool : String
  timestamp : String
deriving Repr, DecidableEq

/-- A dispatcher response: a successful text payload, or the error envelope
with `isError: true`. -/
inductive CallToolResponse where
  | success (text : String)
  | failure (env : ErrorEnvelope)
deriving Repr, DecidableEq

/-- The `CallToolRequestSchema` dispatcher of `setupHandlers`
(`src/index.ts:82-199`): the handler outcome (its serialized payload, or
the error it threw) is wrapped into the uniform envelope; every error is
caught and stamped with `new Date().toISOString()`. -/
def dispatchCallTool (handler : Except String String) (name : String)
    (now : DateTimeRec) : CallToolResponse :=
  match handler with
  | .ok text => .success text
  | .error msg =>
      .failure { error := msg, tool := name, timestamp := toISOString now }

/-- Claim C8: the dispatcher is total — a successful handler yields a
success payload and a failing handler always yields an error envelope, so
no exception escapes; the envelope carries the error message, the invoked
tool name and an ISO-8601 timestamp (well-formed for every clock value);
and a rate-limited client failure fed through `handleCheckNodeHealth`
surfaces as an envelope whose message carries the handler prefix and the
client's message. -/
theorem dispatcher_error_envelope_spec (name : String) (now : DateTimeRec)
    (clientError : Option String) (serialize : HealthCheck → String)
    (hmsg : strTruthy clientError = true) :
    (∀ t, dispatchCallTool (Except.ok t) name now = CallToolResponse.success t)
    ∧ (∀ msg, dispatchCallTool (Except.error msg) name now
        = CallToolResponse.failure
            { error := msg, tool := name, timestamp := toISOString now })
    ∧ isIsoTimestamp (toISOString now) = true
    ∧ dispatchCallTool ((handleCheckNodeHealthE (Except.error clientError)).map serialize)
          name now
        = CallToolResponse.failure
            { error := "Failed to check node health: " ++ clientError.getD ""
              tool := name
              timestamp := toISOString now } := by
  refine ⟨fun t => rfl, fun msg => rfl, isIsoTimestamp_toISOString now, ?_⟩
  simp only [handleCheckNodeHealthE, hmsg, if_pos, Except.map, dispatchCallTool]

end StellarMon

namespace StellarMon

theorem dispatcher_error_envelope_spec_witness :
    strTruthy (some "Rate limit exceeded. Please try again later.") = true
    ∧ dispatchCallTool
        ((handleCheckNodeHealthE
            (Except.error (some "Rate limit exceeded. Please try again later."))).map
          (fun _ => ""))
        "check_node_health" ⟨2024, 5, 25, 12, 0, 0, 0⟩
      = CallToolResponse.failure
          { error := "Failed to check node health: "
              ++ (some "Rate limit exceeded. Please try again later.").getD ""
            tool := "check_node_health"
            timestamp := toISOString ⟨2024, 5, 25, 12, 0, 0, 0⟩ } :=
  ⟨by decide,
    (dispatcher_error_envelope_spec "check_node_health" ⟨2024, 5, 25, 12, 0, 0, 0⟩
      (some "Rate limit exceeded. Please try again later.") (fun _ => "") (by decide)).2.2.2⟩

end StellarMon
